import Mathlib

/-!
Shallow embedding of `src/index.ts` (notebooklm-mcp).

The program drives a browser through puppeteer.  We model every puppeteer
primitive as an observation of an abstract page environment (`PageEnv`),
which fixes the outcome of each primitive (success or a thrown error, plus
the data the primitive would return).  A computation is a function from the
module state (the `browser` / `page` module-level variables of the source)
and an accumulated trace of attempted browser actions to a result in
`Except String`, the new module state, and the extended trace.  Thrown
JavaScript exceptions are modelled as `Except.error` carrying the
exception's textual representation.
-/

/-- One attempted browser-automation action, recorded in the trace in the
order the source awaits it.  An action is recorded whether or not it
succeeds (it was attempted either way). -/
inductive Act where
  | launch
  | newPage
  | goto (url : String)
  | waitForSelector (sel : String)
  | typeText (sel : String) (text : String)
  | click (sel : String)
  | waitForNavigation
  | queryButtons
  | btnEval (i : Nat)
  | btnClick (i : Nat)
  | kbdType (text : String)
  | kbdPress (key : String)
  | queryEval
  deriving DecidableEq, Repr

/-- The two module-level variables of `src/index.ts` (lines 12-13):
`let browser: Browser | null` and `let page: Page | null`.  Handles are
modelled as natural numbers. -/
structure ModState where
  browser : Option Nat
  page : Option Nat
  deriving DecidableEq, Repr

/-- The abstract browser/page environment: for each puppeteer primitive the
outcome it would have (`Except.error e` models a thrown exception whose
textual representation is `e`), together with the configured credentials
(`GOOGLE_EMAIL` / `GOOGLE_PASSWORD`, lines 15-16). -/
structure PageEnv where
  launchResult : Except String Nat
  newPageResult : Except String Nat
  googleEmail : String
  googlePassword : String
  gotoResult : String → Except String Unit
  urlAfterGoto : String
  waitForSelectorResult : String → Except String Unit
  typeResult : String → String → Except String Unit
  clickResult : String → Except String Unit
  navigationResult : Except String Unit
  queryButtonsResult : Except String Nat
  btnEvalResult : Nat → Except String (Option String)
  btnClickResult : Nat → Except String Unit
  kbdTypeResult : String → Except String Unit
  kbdPressResult : String → Except String Unit
  queryEvalResult : Except String (List (Option String))

/-- The effect monad: module state and action trace in, result (or thrown
exception), new state and extended trace out. -/
def BrowserM (α : Type) : Type :=
  ModState → List Act → Except String α × ModState × List Act

instance : Monad BrowserM where
  pure a := fun s tr => (Except.ok a, s, tr)
  bind x f := fun s tr =>
    match x s tr with
    | (Except.ok a, s2, tr2) => f a s2 tr2
    | (Except.error e, s2, tr2) => (Except.error e, s2, tr2)

/-- `throw new Error(e)` (uncaught unless a surrounding try/catch catches it). -/
def throwB (e : String) : BrowserM α := fun s tr => (Except.error e, s, tr)

/-- A JavaScript `try { x } catch (e) { h e }` block. -/
def tryCatchB (x : BrowserM α) (h : String → BrowserM α) : BrowserM α := fun s tr =>
  match x s tr with
  | (Except.ok a, s2, tr2) => (Except.ok a, s2, tr2)
  | (Except.error e, s2, tr2) => h e s2 tr2

/-- JavaScript `String.prototype.includes`: does `pat` occur in `s` as a
contiguous substring?  Implemented over the character lists. -/
def charsStartWith : List Char → List Char → Bool
  | [], _ => true
  | _ :: _, [] => false
  | a :: as, b :: bs => a == b && charsStartWith as bs

def charsContain (pat : List Char) : List Char → Bool
  | [] => pat.isEmpty
  | c :: cs => charsStartWith pat (c :: cs) || charsContain pat cs

def strContains (s pat : String) : Bool :=
  charsContain pat.data s.data

/-- JavaScript `String.prototype.trim` over the core whitespace characters:
strip leading and trailing whitespace. -/
def jsWhitespace (c : Char) : Bool :=
  c == ' ' || c == '\t' || c == '\n' || c == '\r' || c == '\x0b' || c == '\x0c'

def jsTrim (s : String) : String :=
  ⟨((s.data.dropWhile jsWhitespace).reverse.dropWhile jsWhitespace).reverse⟩

/-- `page.goto(url, ...)` (the `waitUntil` option has no observable effect
in the model beyond the action itself). -/
def doGoto (env : PageEnv) (url : String) : BrowserM Unit := fun s tr =>
  (env.gotoResult url, s, tr ++ [Act.goto url])

/-- `page.waitForSelector(sel, { timeout })`. -/
def doWaitForSelector (env : PageEnv) (sel : String) : BrowserM Unit := fun s tr =>
  (env.waitForSelectorResult sel, s, tr ++ [Act.waitForSelector sel])

/-- `page.type(sel, text)`. -/
def doType (env : PageEnv) (sel text : String) : BrowserM Unit := fun s tr =>
  (env.typeResult sel text, s, tr ++ [Act.typeText sel text])

/-- `page.click(sel)`. -/
def doClick (env : PageEnv) (sel : String) : BrowserM Unit := fun s tr =>
  (env.clickResult sel, s, tr ++ [Act.click sel])

/-- `page.waitForNavigation(...)`. -/
def doWaitForNavigation (env : PageEnv) : BrowserM Unit := fun s tr =>
  (env.navigationResult, s, tr ++ [Act.waitForNavigation])

/-- `page.$$("button")`: returns the number of button handles. -/
def doQueryButtons (env : PageEnv) : BrowserM Nat := fun s tr =>
  (env.queryButtonsResult, s, tr ++ [Act.queryButtons])

/-- `btn.evaluate((el) => el.textContent)` for the i-th button; `none`
models a null `textContent`. -/
def doBtnEval (env : PageEnv) (i : Nat) : BrowserM (Option String) := fun s tr =>
  (env.btnEvalResult i, s, tr ++ [Act.btnEval i])

/-- `btn.click()` for the i-th button. -/
def doBtnClick (env : PageEnv) (i : Nat) : BrowserM Unit := fun s tr =>
  (env.btnClickResult i, s, tr ++ [Act.btnClick i])

/-- `page.keyboard.type(text)`. -/
def doKbdType (env : PageEnv) (text : String) : BrowserM Unit := fun s tr =>
  (env.kbdTypeResult text, s, tr ++ [Act.kbdType text])

/-- `page.keyboard.press(key)`. -/
def doKbdPress (env : PageEnv) (key : String) : BrowserM Unit := fun s tr =>
  (env.kbdPressResult key, s, tr ++ [Act.kbdPress key])

/-- `page.$$eval(sel, els => els.map(el => el.textContent?.trim()).filter(Boolean))`:
the environment supplies the raw `textContent` of each matched element
(`none` = null); the mapping and filtering are done by `listNotebooks`. -/
def doQueryEval (env : PageEnv) : BrowserM (List (Option String)) := fun s tr =>
  (env.queryEvalResult, s, tr ++ [Act.queryEval])

/-- The target application's root URL (lines 30, 53, 82). -/
def rootUrl : String := "https://notebooklm.google.com"

/-- `initBrowser` (lines 18-27).  If `browser` is null, launch a browser
and assign it, then open a page and assign it; return `page!` (the current
value of the `page` variable, possibly null, modelled as `Option Nat`).
Assignments happen only after the corresponding await succeeds, so a
throwing `launch` leaves both variables null and a throwing `newPage`
leaves `browser` assigned but `page` null. -/
def initBrowser (env : PageEnv) : BrowserM (Option Nat) := fun s tr =>
  if s.browser.isNone then
    match env.launchResult with
    | Except.error e => (Except.error e, s, tr ++ [Act.launch])
    | Except.ok b =>
      match env.newPageResult with
      | Except.error e =>
          (Except.error e, { s with browser := some b }, tr ++ [Act.launch, Act.newPage])
      | Except.ok p =>
          (Except.ok (some p), { browser := some b, page := some p },
            tr ++ [Act.launch, Act.newPage])
  else
    (Except.ok s.page, s, tr)

/-- `loginToGoogle` (lines 29-47).  Navigate to the root URL; if the
resulting URL contains the app domain and not the login domain, return
(skip); otherwise run the two-step login sequence.  The page argument of
the source is represented by the environment itself. -/
def loginToGoogle (env : PageEnv) : BrowserM Unit := do
  doGoto env rootUrl
  if strContains env.urlAfterGoto "notebooklm.google.com"
      && !strContains env.urlAfterGoto "accounts.google.com" then
    pure ()
  else do
    doWaitForSelector env "input[type=\"email\"]"
    doType env "input[type=\"email\"]" env.googleEmail
    doClick env "#identifierNext"
    doWaitForSelector env "input[type=\"password\"]"
    doType env "input[type=\"password\"]" env.googlePassword
    doClick env "#passwordNext"
    doWaitForNavigation env

/-- The shared opening of `createNotebook` and `listNotebooks`
(lines 50-53 and 79-82): obtain the page, ensure login, navigate to the
app root.  These steps are outside each handler's try/catch. -/
def pagePrelude (env : PageEnv) : BrowserM (Option Nat) := do
  let p ← initBrowser env
  loginToGoogle env
  doGoto env rootUrl
  pure p

/-- Scan of `await p.$$("button")` (lines 59-65): for each button handle in
order, read its `textContent`; if it is non-null and contains
"New notebook", click that button and break out of the loop. -/
def clickNewNotebookLoop (env : PageEnv) : List Nat → BrowserM Unit
  | [] => pure ()
  | i :: rest => do
    let text ← doBtnEval env i
    match text with
    | some t =>
      if strContains t "New notebook" then doBtnClick env i
      else clickNewNotebookLoop env rest
    | none => clickNewNotebookLoop env rest

/-- Success message of `createNotebook` (line 72). -/
def createSuccessMsg (title : String) : String :=
  "노트북 \"" ++ title ++ "\" 생성 완료!"

/-- Failure message of `createNotebook` (line 74). -/
def createFailMsg (e : String) : String :=
  "노트북 생성 중 오류 발생: " ++ e ++ ". NotebookLM 페이지를 직접 확인해주세요."

/-- Body of the try block of `createNotebook` (lines 57-72). -/
def createNotebookTry (env : PageEnv) (title : String) : BrowserM String := do
  doWaitForSelector env "[aria-label=\"New notebook\"], button[jsname]"
  let n ← doQueryButtons env
  clickNewNotebookLoop env (List.range n)
  doWaitForSelector env "input[placeholder], input[aria-label]"
  doKbdType env title
  doKbdPress env "Enter"
  pure (createSuccessMsg title)

/-- `createNotebook` (lines 49-76): the prelude runs outside the try/catch;
only the button/typing sequence is guarded. -/
def createNotebook (env : PageEnv) (title : String) : BrowserM String := do
  let _p ← pagePrelude env
  tryCatchB (createNotebookTry env title) (fun e => pure (createFailMsg e))

/-- Empty-state message of `listNotebooks` (line 90). -/
def listEmptyMsg : String := "노트북이 없거나 목록을 불러오지 못했습니다."

/-- Failure message of `listNotebooks` (line 93). -/
def listFailMsg (e : String) : String := "목록 불러오기 오류: " ++ e

/-- `listNotebooks` (lines 78-95). -/
def listNotebooks (env : PageEnv) : BrowserM String := do
  let _p ← pagePrelude env
  tryCatchB
    (do
      let raw ← doQueryEval env
      let notebooks := (raw.filterMap (Option.map jsTrim)).filter (fun t => t != "")
      if notebooks.length == 0 then
        pure listEmptyMsg
      else
        pure ("노트북 목록:\n"
          ++ String.intercalate "\n"
              (notebooks.enum.map (fun p => toString (p.1 + 1) ++ ". " ++ p.2))))
    (fun e => pure (listFailMsg e))

/-- One content item of a response envelope (`{ type: "text", text }`);
the JSON field `type` is a Lean keyword, rendered as `itemType`. -/
structure ContentItem where
  itemType : String
  text : String
  deriving DecidableEq, Repr

/-- The response envelope `{ content: [...] }` returned by the dispatcher. -/
structure ToolResponse where
  content : List ContentItem
  deriving DecidableEq, Repr

/-- The `open_notebooklm` branch of the dispatcher (lines 151-155): obtain
the page, ensure login, return the fixed confirmation text.  No try/catch. -/
def openSite (env : PageEnv) : BrowserM ToolResponse := do
  let _p ← initBrowser env
  loginToGoogle env
  pure { content := [{ itemType := "text", text := "NotebookLM을 브라우저에서 열었습니다." }] }

/-- The call dispatcher (lines 137-158).  `title` is the value of
`(args as { title: string }).title` for the create branch. -/
def callTool (env : PageEnv) (name : String) (title : String) : BrowserM ToolResponse :=
  if name = "create_notebook" then do
    let result ← createNotebook env title
    pure { content := [{ itemType := "text", text := result }] }
  else if name = "list_notebooks" then do
    let result ← listNotebooks env
    pure { content := [{ itemType := "text", text := result }] }
  else if name = "open_notebooklm" then
    openSite env
  else
    throwB "지원하지 않는 도구입니다."

/-- One declared tool of the static catalog (lines 104-134): its name,
description, and JSON-schema input description (property names with their
declared types, and the list of required property names). -/
structure ToolDecl where
  name : String
  descr : String
  schemaType : String
  schemaProperties : List (String × String)
  schemaRequired : List String
  deriving DecidableEq, Repr

/-- The static tool catalog returned by the list-tools handler
(lines 104-134). -/
def toolCatalog : List ToolDecl :=
  [ { name := "create_notebook"
    , descr := "새로운 NotebookLM 프로젝트를 생성합니다."
    , schemaType := "object"
    , schemaProperties := [("title", "string")]
    , schemaRequired := ["title"] }
  , { name := "list_notebooks"
    , descr := "현재 NotebookLM의 노트북 목록을 가져옵니다."
    , schemaType := "object"
    , schemaProperties := []
    , schemaRequired := [] }
  , { name := "open_notebooklm"
    , descr := "브라우저에서 NotebookLM을 엽니다."
    , schemaType := "object"
    , schemaProperties := []
    , schemaRequired := [] } ]

/-! ## Helper lemmas about the effect monad and substring search -/

theorem bind_apply {α β : Type} (x : BrowserM α) (f : α → BrowserM β)
    (s : ModState) (tr : List Act) :
    (x >>= f) s tr =
      match x s tr with
      | (Except.ok a, s2, tr2) => f a s2 tr2
      | (Except.error e, s2, tr2) => (Except.error e, s2, tr2) := rfl

theorem pure_apply {α : Type} (a : α) (s : ModState) (tr : List Act) :
    (pure a : BrowserM α) s tr = (Except.ok a, s, tr) := rfl

theorem bind_ok_iff {α β : Type} (x : BrowserM α) (f : α → BrowserM β)
    (s : ModState) (tr : List Act) (b : β) (s2 : ModState) (tr2 : List Act) :
    (x >>= f) s tr = (Except.ok b, s2, tr2) ↔
      ∃ a s1 tr1, x s tr = (Except.ok a, s1, tr1) ∧ f a s1 tr1 = (Except.ok b, s2, tr2) := by
  rw [bind_apply]
  rcases x s tr with ⟨r, s1, tr1⟩
  cases r with
  | ok a =>
    constructor
    · intro h
      exact ⟨a, s1, tr1, rfl, h⟩
    · rintro ⟨a2, s12, tr12, heq, h⟩
      obtain ⟨h1, h2, h3⟩ : a = a2 ∧ s1 = s12 ∧ tr1 = tr12 := by simpa using heq
      subst h1
      subst h2
      subst h3
      exact h
  | error e => simp

theorem charsStartWith_append (l r : List Char) : charsStartWith l (l ++ r) = true := by
  induction l with
  | nil => rfl
  | cons a as ih => simp [charsStartWith, ih]

theorem charsContain_append (pre pat suf : List Char) :
    charsContain pat (pre ++ pat ++ suf) = true := by
  induction pre with
  | nil =>
    cases pat with
    | nil => cases suf <;> simp [charsContain, charsStartWith]
    | cons c cs =>
      have h := charsStartWith_append (c :: cs) suf
      simp only [List.nil_append, List.cons_append, charsContain]
      simp only [List.cons_append] at h
      simp [h]
  | cons c pre2 ih =>
    simp only [List.cons_append]
    rw [show charsContain pat (c :: (pre2 ++ pat ++ suf)) =
          (charsStartWith pat (c :: (pre2 ++ pat ++ suf))
            || charsContain pat (pre2 ++ pat ++ suf)) from rfl]
    rw [ih]
    simp

theorem strData_append (a b : String) : (a ++ b).data = a.data ++ b.data := by
  cases a
  cases b
  rfl

theorem strContains_middle (a t b : String) : strContains (a ++ t ++ b) t = true := by
  unfold strContains
  rw [strData_append, strData_append]
  exact charsContain_append a.data t.data b.data

/-! ## Concrete environments used by the witnesses -/

/-- A fully successful environment whose post-navigation URL already shows
the logged-in application, with three notebook titles in the DOM. -/
def okEnv : PageEnv :=
  { launchResult := Except.ok 0
  , newPageResult := Except.ok 0
  , googleEmail := "user@example.com"
  , googlePassword := "hunter2"
  , gotoResult := fun _ => Except.ok ()
  , urlAfterGoto := "https://notebooklm.google.com/"
  , waitForSelectorResult := fun _ => Except.ok ()
  , typeResult := fun _ _ => Except.ok ()
  , clickResult := fun _ => Except.ok ()
  , navigationResult := Except.ok ()
  , queryButtonsResult := Except.ok 1
  , btnEvalResult := fun _ => Except.ok (some "New notebook")
  , btnClickResult := fun _ => Except.ok ()
  , kbdTypeResult := fun _ => Except.ok ()
  , kbdPressResult := fun _ => Except.ok ()
  , queryEvalResult := Except.ok [some "A", some "B", some "C"] }

/-! ## C2: the Authenticator skips when the URL already shows the app -/

/-- C2: for every page environment whose URL after the initial navigation
contains the app domain and not the login domain, `loginToGoogle` returns
successfully having performed only that single navigation: no selector
wait, no typing, no click, no further navigation, and the module state is
untouched. -/
theorem loginToGoogle_skips_when_logged_in (env : PageEnv) (s : ModState) (tr : List Act)
    (hg : env.gotoResult rootUrl = Except.ok ())
    (h1 : strContains env.urlAfterGoto "notebooklm.google.com" = true)
    (h2 : strContains env.urlAfterGoto "accounts.google.com" = false) :
    loginToGoogle env s tr = (Except.ok (), s, tr ++ [Act.goto rootUrl]) := by
  unfold loginToGoogle
  rw [bind_apply]
  unfold doGoto
  rw [hg]
  simp [h1, h2, pure_apply]

theorem loginToGoogle_skips_when_logged_in_witness :
    loginToGoogle okEnv ⟨some 0, some 0⟩ [] =
      (Except.ok (), ⟨some 0, some 0⟩, [Act.goto rootUrl]) :=
  loginToGoogle_skips_when_logged_in okEnv ⟨some 0, some 0⟩ [] rfl (by decide) (by decide)

/-! ## C4: the session accessor is a memoizing singleton -/

/-- C4: when the first launch and page creation succeed, the first call to
`initBrowser` from the empty module state creates the browser and page and
returns the page handle; every call from a state whose `browser` is
already set returns the stored `page` unchanged with no launch and no new
page; and two calls in sequence from the empty state return the identical
handle, with the browser launched only on the first call. -/
theorem initBrowser_singleton (env : PageEnv) (tr tr3 : List Act) (b p : Nat)
    (hl : env.launchResult = Except.ok b)
    (hp : env.newPageResult = Except.ok p) :
    initBrowser env ⟨none, none⟩ tr
        = (Except.ok (some p), ⟨some b, some p⟩, tr ++ [Act.launch, Act.newPage]) ∧
    (∀ s : ModState, s.browser = some b →
        initBrowser env s tr3 = (Except.ok s.page, s, tr3)) ∧
    (do
        let p1 ← initBrowser env
        let p2 ← initBrowser env
        pure (p1, p2) : BrowserM (Option Nat × Option Nat)) ⟨none, none⟩ tr
      = (Except.ok (some p, some p), ⟨some b, some p⟩, tr ++ [Act.launch, Act.newPage]) := by
  refine ⟨?_, ?_, ?_⟩
  · unfold initBrowser
    rw [hl, hp]
    rfl
  · intro s hs
    unfold initBrowser
    rw [hs]
    rfl
  · rw [bind_apply]
    unfold initBrowser
    rw [hl, hp]
    rfl

theorem initBrowser_singleton_witness :
    initBrowser okEnv ⟨none, none⟩ []
        = (Except.ok (some 0), ⟨some 0, some 0⟩, [Act.launch, Act.newPage]) ∧
    initBrowser okEnv ⟨some 0, some 5⟩ []
        = (Except.ok (some 5), ⟨some 0, some 5⟩, []) ∧
    (do
        let p1 ← initBrowser okEnv
        let p2 ← initBrowser okEnv
        pure (p1, p2) : BrowserM (Option Nat × Option Nat)) ⟨none, none⟩ []
      = (Except.ok (some 0, some 0), ⟨some 0, some 0⟩, [Act.launch, Act.newPage]) :=
  ⟨(initBrowser_singleton okEnv [] [] 0 0 rfl rfl).1,
   (initBrowser_singleton okEnv [] [] 0 0 rfl rfl).2.1 ⟨some 0, some 5⟩ rfl,
   (initBrowser_singleton okEnv [] [] 0 0 rfl rfl).2.2⟩

/-! ## C6: unknown operation names are rejected with a thrown error -/

/-- C6: for every operation name outside the three-element catalog, the
call dispatcher throws its unsupported-tool error, leaving state and trace
untouched, and in particular never produces a normal response envelope. -/
theorem callTool_unknown_name_throws (env : PageEnv) (name title : String)
    (s : ModState) (tr : List Act)
    (h1 : name ≠ "create_notebook")
    (h2 : name ≠ "list_notebooks")
    (h3 : name ≠ "open_notebooklm") :
    callTool env name title s tr = (Except.error "지원하지 않는 도구입니다.", s, tr) := by
  unfold callTool
  rw [if_neg h1, if_neg h2, if_neg h3]
  rfl

theorem callTool_unknown_name_throws_witness :
    callTool okEnv "delete_notebook" "x" ⟨none, none⟩ []
      = (Except.error "지원하지 않는 도구입니다.", ⟨none, none⟩, []) :=
  callTool_unknown_name_throws okEnv "delete_notebook" "x" ⟨none, none⟩ []
    (by decide) (by decide) (by decide)

/-! ## C8: the static tool catalog -/

/-- C8: the catalog lists exactly the three operations `create_notebook`,
`list_notebooks`, `open_notebooklm`, in that order; only `create_notebook`
declares a property (`title` of type `string`), which is also its only
required field; the other two declare no properties and no required
fields. -/
theorem toolCatalog_shape :
    toolCatalog.map ToolDecl.name = ["create_notebook", "list_notebooks", "open_notebooklm"] ∧
    toolCatalog.map ToolDecl.schemaProperties = [[("title", "string")], [], []] ∧
    toolCatalog.map ToolDecl.schemaRequired = [["title"], [], []] := by
  refine ⟨rfl, rfl, rfl⟩

/-! ## C5: the full two-step login sequence, in order -/

/-- C5: when the post-navigation URL does not pass the logged-in check and
every primitive succeeds, `loginToGoogle` performs exactly, in order: wait
for the email input, type the configured email, click the identifier-next
button, wait for the password input, type the configured password, click
the password-next button, wait for navigation. -/
theorem loginToGoogle_login_sequence (env : PageEnv) (s : ModState) (tr : List Act)
    (hg : env.gotoResult rootUrl = Except.ok ())
    (hcond : (strContains env.urlAfterGoto "notebooklm.google.com"
        && !strContains env.urlAfterGoto "accounts.google.com") = false)
    (hw1 : env.waitForSelectorResult "input[type=\"email\"]" = Except.ok ())
    (ht1 : env.typeResult "input[type=\"email\"]" env.googleEmail = Except.ok ())
    (hc1 : env.clickResult "#identifierNext" = Except.ok ())
    (hw2 : env.waitForSelectorResult "input[type=\"password\"]" = Except.ok ())
    (ht2 : env.typeResult "input[type=\"password\"]" env.googlePassword = Except.ok ())
    (hc2 : env.clickResult "#passwordNext" = Except.ok ())
    (hn : env.navigationResult = Except.ok ()) :
    loginToGoogle env s tr =
      (Except.ok (), s,
        tr ++ [Act.goto rootUrl,
               Act.waitForSelector "input[type=\"email\"]",
               Act.typeText "input[type=\"email\"]" env.googleEmail,
               Act.click "#identifierNext",
               Act.waitForSelector "input[type=\"password\"]",
               Act.typeText "input[type=\"password\"]" env.googlePassword,
               Act.click "#passwordNext",
               Act.waitForNavigation]) := by
  unfold loginToGoogle
  simp [bind_apply, doGoto, doWaitForSelector, doType, doClick, doWaitForNavigation,
    hg, hcond, hw1, ht1, hc1, hw2, ht2, hc2, hn, pure_apply, List.append_assoc]

/-- The same environment as `okEnv` but observed on the login redirect. -/
def loginEnv : PageEnv :=
  { okEnv with urlAfterGoto := "https://accounts.google.com/v3/signin" }

theorem loginToGoogle_login_sequence_witness :
    loginToGoogle loginEnv ⟨some 0, some 0⟩ [] =
      (Except.ok (), ⟨some 0, some 0⟩,
        [Act.goto rootUrl,
         Act.waitForSelector "input[type=\"email\"]",
         Act.typeText "input[type=\"email\"]" "user@example.com",
         Act.click "#identifierNext",
         Act.waitForSelector "input[type=\"password\"]",
         Act.typeText "input[type=\"password\"]" "hunter2",
         Act.click "#passwordNext",
         Act.waitForNavigation]) :=
  loginToGoogle_login_sequence loginEnv ⟨some 0, some 0⟩ [] rfl (by decide)
    rfl rfl rfl rfl rfl rfl rfl

/-! ## C7: the open_notebooklm branch -/

/-- C7: any normal return of the `open_notebooklm` branch carries exactly
the fixed confirmation text, and any exception thrown by the session
manager or the authenticator on this path propagates out of the dispatcher
unchanged (there is no local catch). -/
theorem callTool_open_fixed_or_propagates (env : PageEnv) (title : String)
    (s : ModState) (tr : List Act) :
    (∀ v s2 tr2, callTool env "open_notebooklm" title s tr = (Except.ok v, s2, tr2) →
        v = { content := [{ itemType := "text", text := "NotebookLM을 브라우저에서 열었습니다." }] }) ∧
    (∀ e s2 tr2,
        (do
          let _p ← initBrowser env
          loginToGoogle env : BrowserM Unit) s tr = (Except.error e, s2, tr2) →
        callTool env "open_notebooklm" title s tr = (Except.error e, s2, tr2)) := by
  have hdisp : callTool env "open_notebooklm" title = openSite env := by
    unfold callTool
    rw [if_neg (by decide), if_neg (by decide), if_pos rfl]
  constructor
  · intro v s2 tr2 h
    rw [hdisp] at h
    unfold openSite at h
    rcases hi : initBrowser env s tr with ⟨ri, si, tri⟩
    simp only [bind_apply, hi] at h
    cases ri with
    | error e2 => simp at h
    | ok a =>
      rcases hl : loginToGoogle env si tri with ⟨rl, sl, trl⟩
      simp only [bind_apply, hl] at h
      cases rl with
      | error e2 => simp at h
      | ok u =>
        simp only [pure_apply] at h
        injection h with h1 h2
        injection h1 with h1
        exact h1.symm
  · intro e s2 tr2 h
    rw [hdisp]
    unfold openSite
    rcases hi : initBrowser env s tr with ⟨ri, si, tri⟩
    simp only [bind_apply, hi] at h ⊢
    cases ri with
    | error e2 => simpa using h
    | ok a =>
      rcases hl : loginToGoogle env si tri with ⟨rl, sl, trl⟩
      simp only [bind_apply, hl] at h ⊢
      cases rl with
      | error e2 => simpa using h
      | ok u => simp at h

/-- `okEnv` with a failing browser launch. -/
def launchFailEnv : PageEnv :=
  { okEnv with launchResult := Except.error "Error: Failed to launch the browser process!" }

theorem callTool_open_fixed_or_propagates_witness :
    callTool launchFailEnv "open_notebooklm" "x" ⟨none, none⟩ []
      = (Except.error "Error: Failed to launch the browser process!", ⟨none, none⟩,
          [Act.launch]) :=
  (callTool_open_fixed_or_propagates launchFailEnv "x" ⟨none, none⟩ []).2
    "Error: Failed to launch the browser process!" ⟨none, none⟩ [Act.launch] rfl

/-! ## C10: browser-set implies page-set, with the documented proviso -/

/-- The module-state invariant of interest: whenever the `browser` variable
is non-null, so is `page`. -/
def stInv (s : ModState) : Prop := s.browser ≠ none → s.page ≠ none

/-- C10: from any state satisfying the invariant, a normal return of
`initBrowser` preserves the invariant, returns exactly the stored `page`
variable, and never hands out a null page (so the source's `page!`
assertion is safe); but if the first call's page creation throws after the
browser was assigned, the state is left with a browser and no page, and a
subsequent call returns the null page without reassigning it. -/
theorem initBrowser_page_invariant (env : PageEnv) (s : ModState) (tr : List Act) :
    (stInv s → ∀ v s2 tr2, initBrowser env s tr = (Except.ok v, s2, tr2) →
        stInv s2 ∧ v = s2.page ∧ v ≠ none) ∧
    (∀ b e, env.launchResult = Except.ok b → env.newPageResult = Except.error e →
        initBrowser env ⟨none, none⟩ tr
            = (Except.error e, ⟨some b, none⟩, tr ++ [Act.launch, Act.newPage]) ∧
        ∀ tr3, initBrowser env ⟨some b, none⟩ tr3 = (Except.ok none, ⟨some b, none⟩, tr3)) := by
  constructor
  · intro hinv v s2 tr2 h
    rcases s with ⟨sb, sp⟩
    cases sb with
    | none =>
      simp only [initBrowser, Option.isNone_none, if_true] at h
      cases hl : env.launchResult with
      | error e =>
        rw [hl] at h
        simp at h
      | ok b =>
        rw [hl] at h
        cases hp : env.newPageResult with
        | error e =>
          rw [hp] at h
          simp at h
        | ok p =>
          rw [hp] at h
          obtain ⟨h1, h2, -⟩ :
              some p = v ∧ (⟨some b, some p⟩ : ModState) = s2
                ∧ tr ++ [Act.launch, Act.newPage] = tr2 := by simpa using h
          subst h1
          subst h2
          refine ⟨fun _ => by simp, rfl, by simp⟩
    | some b0 =>
      have hsp : sp ≠ none := hinv (by simp)
      simp only [initBrowser] at h
      obtain ⟨h1, h2, -⟩ :
          sp = v ∧ (⟨some b0, sp⟩ : ModState) = s2 ∧ tr = tr2 := by simpa using h
      subst h1
      subst h2
      exact ⟨hinv, rfl, hsp⟩
  · intro b e hl hp
    constructor
    · unfold initBrowser
      rw [hl, hp]
      rfl
    · intro tr3
      unfold initBrowser
      rfl

/-- `okEnv` with a failing `newPage` after a successful launch. -/
def pageFailEnv : PageEnv :=
  { okEnv with newPageResult := Except.error "ProtocolError: Target closed" }

theorem initBrowser_page_invariant_witness :
    (stInv ⟨some 0, some 0⟩ ∧ some 0 = (ModState.mk (some 0) (some 0)).page
        ∧ some 0 ≠ none) ∧
    initBrowser pageFailEnv ⟨none, none⟩ []
        = (Except.error "ProtocolError: Target closed", ⟨some 0, none⟩,
            [Act.launch, Act.newPage]) ∧
    initBrowser pageFailEnv ⟨some 0, none⟩ []
        = (Except.ok none, ⟨some 0, none⟩, []) := by
  refine ⟨(initBrowser_page_invariant okEnv ⟨none, none⟩ []).1
      (fun h => absurd rfl h) (some 0) ⟨some 0, some 0⟩ [Act.launch, Act.newPage] rfl,
    ((initBrowser_page_invariant pageFailEnv ⟨none, none⟩ []).2 0
      "ProtocolError: Target closed" rfl rfl).1,
    ((initBrowser_page_invariant pageFailEnv ⟨none, none⟩ []).2 0
      "ProtocolError: Target closed" rfl rfl).2 []⟩

/-! ## C3: listNotebooks on zero and on three text nodes -/

/-- C3: once the prelude (obtain page, login, navigate) has succeeded, if
the DOM query's trimmed non-empty projection is the empty list,
`listNotebooks` returns the designated empty-state message; if the query
yields exactly the text nodes "A", "B", "C" in that order, it returns the
header followed by the exact 1-indexed newline-joined body
"1. A\n2. B\n3. C". -/
theorem listNotebooks_empty_and_three (env : PageEnv) (s s1 : ModState)
    (tr tr1 : List Act) (u : Option Nat)
    (hpre : pagePrelude env s tr = (Except.ok u, s1, tr1)) :
    (∀ raw, env.queryEvalResult = Except.ok raw →
        (raw.filterMap (Option.map jsTrim)).filter (fun t => t != "") = [] →
        listNotebooks env s tr = (Except.ok listEmptyMsg, s1, tr1 ++ [Act.queryEval])) ∧
    (env.queryEvalResult = Except.ok [some "A", some "B", some "C"] →
        listNotebooks env s tr
          = (Except.ok "노트북 목록:\n1. A\n2. B\n3. C", s1, tr1 ++ [Act.queryEval])) := by
  constructor
  · intro raw hq hraw
    simp only [listNotebooks, bind_apply, hpre]
    unfold tryCatchB
    simp only [bind_apply, doQueryEval, hq, hraw]
    simp [pure_apply]
  · intro hq
    simp only [listNotebooks, bind_apply, hpre]
    unfold tryCatchB
    simp only [bind_apply, doQueryEval, hq]
    have hnb : (([some "A", some "B", some "C"] : List (Option String)).filterMap
        (Option.map jsTrim)).filter (fun t => t != "") = ["A", "B", "C"] := by decide
    rw [hnb]
    have hmsg : ("노트북 목록:\n" ++ String.intercalate "\n"
        ((["A", "B", "C"] : List String).enum.map
          (fun p => toString (p.1 + 1) ++ ". " ++ p.2)))
        = "노트북 목록:\n1. A\n2. B\n3. C" := by decide
    simp only [List.length_cons, List.length_nil]
    rw [show ((2 + 1 : Nat) == 0) = false from rfl]
    simp only [Bool.false_eq_true, if_false, hmsg, pure_apply]

/-- `okEnv` whose DOM query yields only null, empty or whitespace text. -/
def emptyListEnv : PageEnv :=
  { okEnv with queryEvalResult := Except.ok [some "  ", none, some ""] }

theorem listNotebooks_empty_and_three_witness :
    listNotebooks emptyListEnv ⟨none, none⟩ []
        = (Except.ok listEmptyMsg, ⟨some 0, some 0⟩,
            [Act.launch, Act.newPage, Act.goto rootUrl, Act.goto rootUrl, Act.queryEval]) ∧
    listNotebooks okEnv ⟨none, none⟩ []
        = (Except.ok "노트북 목록:\n1. A\n2. B\n3. C", ⟨some 0, some 0⟩,
            [Act.launch, Act.newPage, Act.goto rootUrl, Act.goto rootUrl, Act.queryEval]) :=
  ⟨(listNotebooks_empty_and_three emptyListEnv ⟨none, none⟩ ⟨some 0, some 0⟩ []
      [Act.launch, Act.newPage, Act.goto rootUrl, Act.goto rootUrl] (some 0) rfl).1
      [some "  ", none, some ""] rfl (by decide),
   (listNotebooks_empty_and_three okEnv ⟨none, none⟩ ⟨some 0, some 0⟩ []
      [Act.launch, Act.newPage, Act.goto rootUrl, Act.goto rootUrl] (some 0) rfl).2 rfl⟩

/-! ## C1: the error policy of createNotebook -/

theorem createNotebookTry_ok (env : PageEnv) (title : String) (s s2 : ModState)
    (tr tr2 : List Act) (msg : String)
    (h : createNotebookTry env title s tr = (Except.ok msg, s2, tr2)) :
    msg = createSuccessMsg title := by
  simp only [createNotebookTry, bind_ok_iff, pure_apply] at h
  obtain ⟨a1, sa, ta, h1, a2, sb, tb, h2, a3, sc, tc, h3, a4, sd, td, h4,
    a5, se, te, h5, a6, sf, tf, h6, h7⟩ := h
  obtain ⟨h8, -, -⟩ : createSuccessMsg title = msg ∧ sf = s2 ∧ tf = tr2 := by simpa using h7
  exact h8.symm

/-- C1 (amended): the success message embeds the title; once the prelude
(obtain page, login, initial navigation — the part outside the try block)
has succeeded, `createNotebook` always returns normally, with either the
success message embedding the title or a failure message embedding the
caught exception's text; but an exception thrown by the prelude itself
propagates out of the handler unchanged. -/
theorem createNotebook_error_policy (env : PageEnv) (title : String)
    (s : ModState) (tr : List Act) :
    strContains (createSuccessMsg title) title = true ∧
    (∀ u s1 tr1, pagePrelude env s tr = (Except.ok u, s1, tr1) →
        ∃ msg s2 tr2, createNotebook env title s tr = (Except.ok msg, s2, tr2) ∧
          (msg = createSuccessMsg title ∨
            ∃ e, msg = createFailMsg e ∧ strContains msg e = true)) ∧
    (∀ e s1 tr1, pagePrelude env s tr = (Except.error e, s1, tr1) →
        createNotebook env title s tr = (Except.error e, s1, tr1)) := by
  refine ⟨?_, ?_, ?_⟩
  · unfold createSuccessMsg
    exact strContains_middle "노트북 \"" title "\" 생성 완료!"
  · intro u s1 tr1 hpre
    simp only [createNotebook, bind_apply, hpre]
    unfold tryCatchB
    rcases hb : createNotebookTry env title s1 tr1 with ⟨r, s2, tr2⟩
    cases r with
    | ok m =>
      exact ⟨m, s2, tr2, by simp [hb],
        Or.inl (createNotebookTry_ok env title s1 s2 tr1 tr2 m hb)⟩
    | error e =>
      refine ⟨createFailMsg e, s2, tr2, by simp [hb, pure_apply], Or.inr ⟨e, rfl, ?_⟩⟩
      unfold createFailMsg
      exact strContains_middle "노트북 생성 중 오류 발생: " e
        ". NotebookLM 페이지를 직접 확인해주세요."
  · intro e s1 tr1 hpre
    simp [createNotebook, bind_apply, hpre]

/-- `okEnv` observed on the login redirect, with selector waits timing
out: the authenticator's wait for the email field throws. -/
def loginFailEnv : PageEnv :=
  { okEnv with
      urlAfterGoto := "https://accounts.google.com/v3/signin"
    , waitForSelectorResult := fun _ => Except.error "TimeoutError: waiting for selector failed" }

/-- C1 counterexample: an exception raised while logging in (inside the
create-notebook sequence, before the try block) escapes `createNotebook`
as a thrown error instead of being returned as a failure status string,
refuting the claim that every exception of the sequence is caught
locally. -/
theorem createNotebook_c1_counterexample :
    createNotebook loginFailEnv "My Notes" ⟨none, none⟩ []
      = (Except.error "TimeoutError: waiting for selector failed", ⟨some 0, some 0⟩,
          [Act.launch, Act.newPage, Act.goto rootUrl,
           Act.waitForSelector "input[type=\"email\"]"]) := by
  rfl

theorem createNotebook_error_policy_witness :
    pagePrelude okEnv ⟨none, none⟩ []
        = (Except.ok (some 0), ⟨some 0, some 0⟩,
            [Act.launch, Act.newPage, Act.goto rootUrl, Act.goto rootUrl]) ∧
    ∃ msg s2 tr2, createNotebook okEnv "My Notes" ⟨none, none⟩ []
        = (Except.ok msg, s2, tr2) ∧
      (msg = createSuccessMsg "My Notes" ∨
        ∃ e, msg = createFailMsg e ∧ strContains msg e = true) :=
  ⟨rfl, (createNotebook_error_policy okEnv "My Notes" ⟨none, none⟩ []).2.1
      (some 0) ⟨some 0, some 0⟩
      [Act.launch, Act.newPage, Act.goto rootUrl, Act.goto rootUrl] rfl⟩

/-! ## C9: no matching button means no click, yet the handler proceeds -/

theorem clickNewNotebookLoop_no_match (env : PageEnv) (l : List Nat)
    (h : ∀ i ∈ l, ∃ t, env.btnEvalResult i = Except.ok t ∧
        ∀ str, t = some str → strContains str "New notebook" = false) :
    ∀ s tr, clickNewNotebookLoop env l s tr = (Except.ok (), s, tr ++ l.map Act.btnEval) := by
  induction l with
  | nil =>
    intro s tr
    simp [clickNewNotebookLoop, pure_apply]
  | cons i rest ih =>
    intro s tr
    obtain ⟨t, ht, hno⟩ := h i (by simp)
    have hrest := ih (fun j hj => h j (by simp [hj]))
    simp only [clickNewNotebookLoop, bind_apply, doBtnEval, ht]
    cases t with
    | none =>
      simp [hrest, List.append_assoc]
    | some str =>
      simp [hno str rfl, hrest, List.append_assoc]

/-- C9: when every button evaluation succeeds and none of the button texts
contains "New notebook", the scan loop of `createNotebook` completes
without clicking any button, and the handler still proceeds to wait for
the title input, type the title, press Enter, and return the success
message embedding the title. -/
theorem createNotebook_no_matching_button (env : PageEnv) (title : String)
    (s s1 : ModState) (tr1 : List Act) (u : Option Nat) (n : Nat)
    (hpre : pagePrelude env s [] = (Except.ok u, s1, tr1))
    (hw1 : env.waitForSelectorResult "[aria-label=\"New notebook\"], button[jsname]"
        = Except.ok ())
    (hq : env.queryButtonsResult = Except.ok n)
    (hev : ∀ i ∈ List.range n, ∃ t, env.btnEvalResult i = Except.ok t ∧
        ∀ str, t = some str → strContains str "New notebook" = false)
    (hw2 : env.waitForSelectorResult "input[placeholder], input[aria-label]" = Except.ok ())
    (hk1 : env.kbdTypeResult title = Except.ok ())
    (hk2 : env.kbdPressResult "Enter" = Except.ok ()) :
    ∃ tr2, createNotebook env title s []
        = (Except.ok (createSuccessMsg title), s1, tr1 ++ tr2) ∧
      tr2 = [Act.waitForSelector "[aria-label=\"New notebook\"], button[jsname]",
             Act.queryButtons] ++ (List.range n).map Act.btnEval
            ++ [Act.waitForSelector "input[placeholder], input[aria-label]",
                Act.kbdType title, Act.kbdPress "Enter"] ∧
      ∀ j, Act.btnClick j ∉ tr2 := by
  refine ⟨_, ?_, rfl, ?_⟩
  · simp only [createNotebook, bind_apply, hpre]
    unfold tryCatchB
    simp only [createNotebookTry, bind_apply, doWaitForSelector, doQueryButtons,
      doKbdType, doKbdPress, hw1, hq, hw2, hk1, hk2,
      clickNewNotebookLoop_no_match env (List.range n) hev, pure_apply]
    simp [List.append_assoc]
  · intro j
    simp [List.mem_append, List.mem_map]

/-- `okEnv` with two buttons, neither of whose texts mentions the
new-notebook label. -/
def noButtonEnv : PageEnv :=
  { okEnv with
      queryButtonsResult := Except.ok 2
    , btnEvalResult := fun _ => Except.ok (some "Create") }

theorem createNotebook_no_matching_button_witness :
    createNotebook noButtonEnv "My Notes" ⟨none, none⟩ []
      = (Except.ok (createSuccessMsg "My Notes"), ⟨some 0, some 0⟩,
          [Act.launch, Act.newPage, Act.goto rootUrl, Act.goto rootUrl,
           Act.waitForSelector "[aria-label=\"New notebook\"], button[jsname]",
           Act.queryButtons, Act.btnEval 0, Act.btnEval 1,
           Act.waitForSelector "input[placeholder], input[aria-label]",
           Act.kbdType "My Notes", Act.kbdPress "Enter"]) := by
  obtain ⟨tr2, h1, h2, -⟩ := createNotebook_no_matching_button noButtonEnv "My Notes"
    ⟨none, none⟩ ⟨some 0, some 0⟩
    [Act.launch, Act.newPage, Act.goto rootUrl, Act.goto rootUrl] (some 0) 2 rfl rfl rfl
    (fun i _ => ⟨some "Create", rfl, fun str hstr => by
      injection hstr with h
      subst h
      decide⟩)
    rfl rfl rfl
  subst h2
  rw [h1]
  rfl
